import Mathlib

/-!
Shallow embedding of the certificate chaincode (`src/chaincode/cert01/my.go`).

The external ledger (Hyperledger Fabric's `shim.ChaincodeStubInterface`) is
modelled as an association-list key-value store.  Store values are byte
sequences; since every value written or read by this code is either UTF-8 JSON
text or the single sentinel byte `0x00`, they are represented as `String`
(with `"\x00"` for the sentinel byte).

Modelled from the spec: `MakeCompositeKey` is an external-store operation
(`stub.CreateCompositeKey`), not part of the repository's source.  The spec
requires only that a composite key (index name plus ordered attribute values)
is unambiguous against plain primary keys and reversible to its components, so
keys are modelled as a sum type `Key` with a `primary` and a `composite`
constructor, which gives exactly those two guarantees and nothing more.

External calls can fail (store I/O errors, composite-key encoding errors).
Each potentially failing call made by `initCert` is given an explicit fault
slot of type `Option String`: `some e` means the call fails and `e` plays the
role of Go's `err.Error()` text; `none` means the call succeeds.
-/

/-- Byte sequences stored in / returned by the ledger. -/
abbrev Bytes := String

/-- Modelled from the spec: ledger keys.  `primary k` is a plain state key;
`composite idx attrs` is the key `stub.CreateCompositeKey idx attrs` returns.
The spec's composite-key contract (unambiguous against primary keys,
reversible to its components) is captured by the constructors being distinct
and injective. -/
inductive Key where
  | primary (k : String)
  | composite (idx : String) (attrs : List String)
deriving DecidableEq, Repr

/-- The ledger state, newest binding first. -/
abbrev Store := List (Key × Bytes)

/-- `stub.GetState`: first binding for the key, `none` when absent
(Go's `nil` slice). -/
def getState (s : Store) (k : Key) : Option Bytes :=
  match s with
  | [] => none
  | (k2, v) :: rest => if k2 = k then some v else getState rest k

/-- `stub.PutState`: bind `k` to `v` (newest binding shadows older ones). -/
def putState (s : Store) (k : Key) (v : Bytes) : Store :=
  (k, v) :: s

/-- ASCII lowercasing of one character, as `strings.ToLower` acts on the
ASCII range (every character this repository's scenarios use). -/
def lowerChar (c : Char) : Char :=
  if 65 ≤ c.toNat ∧ c.toNat ≤ 90 then Char.ofNat (c.toNat + 32) else c

/-- `strings.ToLower`, restricted to the ASCII range. -/
def strToLower (s : String) : String :=
  ⟨s.data.map lowerChar⟩

/-- `strconv.Atoi`: optional sign, one or more decimal digits, value within
the 64-bit signed-integer range; `none` is Go's non-nil error. -/
def atoi (s : String) : Option Int :=
  let core : List Char → Bool → Option Int := fun ds neg =>
    if ds = [] then none
    else if ds.all (fun d => decide (48 ≤ d.toNat ∧ d.toNat ≤ 57)) then
      let n : Nat := ds.foldl (fun acc d => acc * 10 + (d.toNat - 48)) 0
      let v : Int := if neg then -(n : Int) else (n : Int)
      if -(2 ^ 63) ≤ v ∧ v ≤ 2 ^ 63 - 1 then some v else none
    else none
  match s.data with
  | [] => none
  | c :: rest =>
    if c = '-' then core rest true
    else if c = '+' then core rest false
    else core (c :: rest) false

/-- One lowercase hex digit (only needed for control characters). -/
def hexDigit (n : Nat) : String :=
  (["0", "1", "2", "3", "4", "5", "6", "7", "8", "9",
    "a", "b", "c", "d", "e", "f"]).getD n "0"

/-- String escaping of Go's `encoding/json` (`json.Marshal` with its default
HTML escaping): quote, backslash, `<`, `>`, `&`, control characters, and the
line separators U+2028/U+2029. -/
def escChar (c : Char) : String :=
  if c = '"' then "\\\""
  else if c = '\\' then "\\\\"
  else if c = '<' then "\\u003c"
  else if c = '>' then "\\u003e"
  else if c = '&' then "\\u0026"
  else if c = '\n' then "\\n"
  else if c = '\r' then "\\r"
  else if c = '\t' then "\\t"
  else if c.toNat < 32 then "\\u00" ++ hexDigit (c.toNat / 16) ++ hexDigit (c.toNat % 16)
  else if c.toNat = 0x2028 then "\\u2028"
  else if c.toNat = 0x2029 then "\\u2029"
  else String.singleton c

/-- `json.Marshal` escaping of a whole string. -/
def escape (s : String) : String :=
  String.join (s.data.map escChar)

/-- `json.Marshal` of the `student` struct: fields in declaration order with
their `json:"..."` tags — `docType`, `cert`, `degree`, `iD`, `owner`. -/
def marshalStudent (cert degree : String) (iD : Int) (owner : String) : Bytes :=
  "\x7b\"docType\":\"student\",\"cert\":\"" ++ escape cert ++
    "\",\"degree\":\"" ++ escape degree ++
    "\",\"iD\":" ++ toString iD ++
    ",\"owner\":\"" ++ escape owner ++ "\"\x7d"

/-- The single sentinel byte `0x00` written under index keys. -/
def sentinel : Bytes := "\x00"

/-- `shim.Success` / `shim.Error` responses. -/
inductive Resp where
  | success (payload : Option Bytes)
  | error (msg : String)
deriving DecidableEq, Repr

/-- Fault injection for the external calls `initCert` makes, in program
order: `stub.GetState`, `stub.PutState` of the record,
`stub.CreateCompositeKey`, `stub.PutState` of the index key.
`some e` makes that call fail with error text `e`. -/
structure CreateFaults where
  getFail : Option String
  putCertFail : Option String
  ckFail : Option String
  putIndexFail : Option String
deriving DecidableEq, Repr

/-- The fault-free schedule: every external call succeeds. -/
def noFaults : CreateFaults := ⟨none, none, none, none⟩

/-- Which `return` statement of `initCert` produced the response. -/
inductive CreateExit where
  | badCount
  | emptyArg1
  | emptyArg2
  | emptyArg3
  | emptyArg4
  | badNum
  | getErr
  | duplicate
  | putCertErr
  | ckErr
  | ok
deriving DecidableEq, Repr

/-- Result of one `initCert` invocation: the chaincode response, the store
afterwards, how many `GetState` / `PutState` calls were issued (a call that
fails still counts as issued), and the exit point taken. -/
structure CreateOut where
  resp : Resp
  store : Store
  gets : Nat
  puts : Nat
  tag : CreateExit
deriving DecidableEq, Repr

/-- `initCert` (the `create` operation), translated statement by statement:
argument-count check, the four non-empty checks in order, `strconv.Atoi` on
the third argument, the duplicate lookup, `json.Marshal`, the record
`PutState`, `CreateCompositeKey "degree~name" [degree, cert]`, and the index
`PutState` whose error result the source discards. -/
def initCert (f : CreateFaults) (s : Store) (args : List String) : CreateOut :=
  match args with
  | [a0, a1, a2, a3] =>
    if a0 = "" then ⟨.error "1st argument must be a non-empty string", s, 0, 0, .emptyArg1⟩
    else if a1 = "" then ⟨.error "2nd argument must be a non-empty string", s, 0, 0, .emptyArg2⟩
    else if a2 = "" then ⟨.error "3rd argument must be a non-empty string", s, 0, 0, .emptyArg3⟩
    else if a3 = "" then ⟨.error "4th argument must be a non-empty string", s, 0, 0, .emptyArg4⟩
    else
      match atoi a2 with
      | none => ⟨.error "3rd argument must be a numeric string", s, 0, 0, .badNum⟩
      | some iD =>
        let studentcert := a0
        let degree := strToLower a1
        let owner := strToLower a3
        match f.getFail with
        | some e => ⟨.error ("Failed to get student: " ++ e), s, 1, 0, .getErr⟩
        | none =>
          match getState s (.primary studentcert) with
          | some _ => ⟨.error ("This student already exists: " ++ studentcert), s, 1, 0, .duplicate⟩
          | none =>
            let studentJSON := marshalStudent studentcert degree iD owner
            match f.putCertFail with
            | some e => ⟨.error e, s, 1, 1, .putCertErr⟩
            | none =>
              let s1 := putState s (.primary studentcert) studentJSON
              match f.ckFail with
              | some e => ⟨.error e, s1, 1, 1, .ckErr⟩
              | none =>
                let indexKey := Key.composite "degree~name" [degree, studentcert]
                match f.putIndexFail with
                | some _ => ⟨.success none, s1, 1, 2, .ok⟩
                | none => ⟨.success none, putState s1 indexKey sentinel, 1, 2, .ok⟩
  | _ => ⟨.error "Incorrect number of arguments. Expecting 4", s, 0, 0, .badCount⟩

/-- `readCert` (the `readByID` operation).  `f` is the fault slot of its
single `stub.GetState` call; note the source embeds only the key, not
`err.Error()`, in the failure payload. -/
def readCert (f : Option String) (s : Store) (args : List String) : Resp :=
  match args with
  | [cert] =>
    match f with
    | some _ => .error ("\x7b\"Error\":\"Failed to get state for " ++ cert ++ "\"\x7d")
    | none =>
      match getState s (.primary cert) with
      | none => .error ("\x7b\"Error\":\"student does not exist: " ++ cert ++ "\"\x7d")
      | some v => .success (some v)
  | _ => .error "Incorrect number of arguments. Expecting cert of the student to query"

/-- One item the query iterator yields: `Next` either fails or returns a
(key, value) pair. -/
abbrev QueryItem := Except String (String × Bytes)

/-- The iteration loop of `getQueryResultForQueryString`: the remaining
iterator items, the `bArrayMemberAlreadyWritten` flag, and the buffer so far.
Returns the function result and whether the iterator was closed — the
source's `defer resultsIterator.Close()` runs at every `return`, so both exit
paths record `true`. -/
def qloop : List QueryItem → Bool → String → Except String Bytes × Bool
  | [], _, buf => (.ok (buf ++ "]"), true)
  | .error e :: _, _, _ => (.error e, true)
  | .ok kv :: rest, written, buf =>
    let buf1 := cond written (buf ++ ",") buf
    let buf2 := buf1 ++ "\x7b\"Key\":" ++ "\"" ++ kv.1 ++ "\"" ++ ", \"Record\":" ++ kv.2 ++ "\x7d"
    qloop rest true buf2

/-- The external query facility (`stub.GetQueryResult`): for a query string,
either an error or the finite stream of items its iterator will yield. -/
abbrev QueryFacility := String → Except String (List QueryItem)

/-- `getQueryResultForQueryString`: run the query, then assemble the JSON
array in a buffer initialised to `"["`.  The second component records whether
an obtained iterator was closed (`false` on the `GetQueryResult`-failure path,
where no iterator exists). -/
def getQueryResultForQueryString (facility : QueryFacility) (queryString : String) :
    Except String Bytes × Bool :=
  match facility queryString with
  | .error e => (.error e, false)
  | .ok items => qloop items false "["

/-- The selector string `queryCertByOwner` formats
(`fmt.Sprintf` with the lowercased owner spliced in). -/
def ownerSelector (owner : String) : String :=
  "\x7b\"selector\":\x7b\"docType\":\"student\",\"owner\":\"" ++ owner ++ "\"\x7d\x7d"

/-- `queryCertByOwner` (the `queryByOwner` operation). -/
def queryCertByOwner (facility : QueryFacility) (args : List String) : Resp :=
  if args.length < 1 then .error "Incorrect number of arguments. Expecting 1"
  else
    let owner := strToLower (args.headD "")
    match (getQueryResultForQueryString facility (ownerSelector owner)).1 with
    | .error e => .error e
    | .ok res => .success (some res)

/-- Store states reachable from the empty ledger by `initCert` invocations
under arbitrary fault schedules (`readCert` and `queryCertByOwner` never
write, so they do not change the reachable set). -/
inductive Reachable : Store → Prop where
  | init : Reachable []
  | step (f : CreateFaults) (args : List String) {s : Store} :
      Reachable s → Reachable (initCert f s args).store

/-- Store states reachable from the empty ledger by fault-free `initCert`
invocations. -/
inductive ReachableNF : Store → Prop where
  | init : ReachableNF []
  | step (args : List String) {s : Store} :
      ReachableNF s → ReachableNF (initCert noFaults s args).store

/-- One element of the assembled query result, exactly as the source's
`WriteString` calls emit it (note the space in `, \"Record\":`). -/
def emittedElem (kv : String × Bytes) : String :=
  "\x7b\"Key\":" ++ "\"" ++ kv.1 ++ "\"" ++ ", \"Record\":" ++ kv.2 ++ "\x7d"

/-- The whole assembled query result: the emitted elements joined by commas,
wrapped in square brackets. -/
def emittedOutput (ps : List (String × Bytes)) : String :=
  "[" ++ String.intercalate "," (ps.map emittedElem) ++ "]"

/-- One element of the query result as the spec's words claim it, byte for
byte: no space between the comma and `\"Record\"`. -/
def claimedElem (kv : String × Bytes) : String :=
  "\x7b\"Key\":\"" ++ kv.1 ++ "\",\"Record\":" ++ kv.2 ++ "\x7d"

/-- The query result as the spec's words claim it, byte for byte. -/
def claimedOutput (ps : List (String × Bytes)) : String :=
  "[" ++ String.intercalate "," (ps.map claimedElem) ++ "]"

/-- The composite secondary-index entry `(indexName, degree, certificateID)`
is present in the store only when the primary record keyed by that
certificate ID is present: no orphan index entries. -/
def IndexImpliesRecord (s : Store) : Prop :=
  ∀ d c, (getState s (.composite "degree~name" [d, c])).isSome = true →
    (getState s (.primary c)).isSome = true

/-- Every primary record in the store is a marshalled student whose
composite secondary-index entry `(indexName, degree, certificateID)` is
present: no missing index entries. -/
def RecordImpliesIndex (s : Store) : Prop :=
  ∀ c v, getState s (.primary c) = some v →
    ∃ d i o, v = marshalStudent c d i o ∧
      (getState s (.composite "degree~name" [d, c])).isSome = true

section StoreLemmas

theorem getState_putState_self (s : Store) (k : Key) (v : Bytes) :
    getState (putState s k v) k = some v := by
  simp [getState, putState]

theorem getState_putState_ne (s : Store) (k k2 : Key) (v : Bytes) (h : k2 ≠ k) :
    getState (putState s k v) k2 = getState s k2 := by
  have h2 : k ≠ k2 := Ne.symm h
  simp [getState, putState, h2]

end StoreLemmas

section LowerLemmas

theorem char_toNat_ofNat_lt (n : Nat) (h : n < 128) : (Char.ofNat n).toNat = n := by
  rw [Char.ofNat]
  rw [dif_pos (Or.inl (by omega))]
  simp [Char.ofNatAux, Char.toNat, UInt32.toNat, BitVec.toNat_ofNatLt]

theorem lowerChar_idem (c : Char) : lowerChar (lowerChar c) = lowerChar c := by
  unfold lowerChar
  by_cases h : 65 ≤ c.toNat ∧ c.toNat ≤ 90
  · rw [if_pos h]
    have ht : (Char.ofNat (c.toNat + 32)).toNat = c.toNat + 32 :=
      char_toNat_ofNat_lt _ (by omega)
    rw [if_neg (by rw [ht]; omega)]
  · rw [if_neg h, if_neg h]

theorem strToLower_idem (s : String) : strToLower (strToLower s) = strToLower s := by
  unfold strToLower
  refine congrArg String.mk ?_
  rw [show String.data ⟨s.data.map lowerChar⟩ = s.data.map lowerChar from rfl,
    List.map_map]
  exact List.map_congr_left (fun a _ => lowerChar_idem a)

end LowerLemmas

section QloopLemmas

theorem qloop_closed (its : List QueryItem) (w : Bool) (buf : String) :
    (qloop its w buf).2 = true := by
  induction its generalizing w buf with
  | nil => rfl
  | cons hd tl ih =>
    cases hd with
    | error e => rfl
    | ok kv => simpa [qloop] using ih true _

/-- Comma-joining helper used to relate the buffer loop to
`String.intercalate`. -/
def joinComma : List String → String
  | [] => ""
  | y :: ys => "," ++ y ++ joinComma ys

theorem intercalate_go_eq (xs : List String) :
    ∀ x : String, String.intercalate.go x "," xs = x ++ joinComma xs := by
  induction xs with
  | nil =>
    intro x
    unfold String.intercalate.go joinComma
    rw [String.append_empty]
  | cons y ys ih =>
    intro x
    unfold String.intercalate.go joinComma
    rw [ih (x ++ "," ++ y)]
    simp [String.append_assoc]

theorem intercalate_comma_eq (x : String) (xs : List String) :
    String.intercalate "," (x :: xs) = x ++ joinComma xs := by
  unfold String.intercalate
  exact intercalate_go_eq xs x

theorem joinComma_cons (y : String) (ys : List String) :
    joinComma (y :: ys) = "," ++ y ++ joinComma ys := rfl

theorem qloop_ok_eq (ps : List (String × Bytes)) :
    ∀ buf : String,
      qloop (ps.map Except.ok) true buf =
        (.ok (buf ++ joinComma (ps.map emittedElem) ++ "]"), true) := by
  induction ps with
  | nil =>
    intro buf
    show ((Except.ok (buf ++ "]") : Except String Bytes), true)
        = ((Except.ok (buf ++ joinComma [] ++ "]") : Except String Bytes), true)
    rw [show joinComma [] = "" from rfl, String.append_empty]
  | cons p ps ih =>
    intro buf
    simp only [List.map_cons]
    show qloop (List.map Except.ok ps) true
        (cond true (buf ++ ",") buf ++ "\x7b\"Key\":" ++ "\"" ++ p.1 ++ "\"" ++
          ", \"Record\":" ++ p.2 ++ "\x7d") = _
    rw [ih, joinComma_cons]
    show (Except.ok _, true) = (Except.ok _, true)
    refine congrArg (fun b => (Except.ok b, true)) ?_
    rw [show cond true (buf ++ ",") buf = buf ++ "," from rfl]
    unfold emittedElem
    simp only [String.append_assoc]

end QloopLemmas

section CreateCharacterization

/-- Case analysis of a fault-free `initCert` call: either it changes nothing
(a validation or uniqueness failure), or the arguments were a valid 4-tuple
whose certificate was absent and the store gains exactly the primary record
and its composite-index entry. -/
theorem initCert_noFaults_store (s : Store) (args : List String) :
    (initCert noFaults s args).store = s ∨
    ∃ a0 a1 a2 a3 n, args = [a0, a1, a2, a3] ∧
      atoi a2 = some n ∧
      getState s (.primary a0) = none ∧
      (initCert noFaults s args).store =
        putState (putState s (.primary a0)
            (marshalStudent a0 (strToLower a1) n (strToLower a3)))
          (.composite "degree~name" [strToLower a1, a0]) sentinel := by
  rcases args with _ | ⟨a0, _ | ⟨a1, _ | ⟨a2, _ | ⟨a3, _ | ⟨a4, rest⟩⟩⟩⟩⟩ <;>
    try (left; rfl)
  show (initCert noFaults s [a0, a1, a2, a3]).store = s ∨ _
  unfold initCert noFaults
  dsimp only
  by_cases h0 : a0 = ""
  · simp only [h0, if_pos rfl]; left; rfl
  · rw [if_neg h0]
    by_cases h1 : a1 = ""
    · rw [if_pos h1]; left; rfl
    · rw [if_neg h1]
      by_cases h2 : a2 = ""
      · rw [if_pos h2]; left; rfl
      · rw [if_neg h2]
        by_cases h3 : a3 = ""
        · rw [if_pos h3]; left; rfl
        · rw [if_neg h3]
          cases hn : atoi a2 with
          | none => left; rfl
          | some n =>
            cases hg : getState s (.primary a0) with
            | some v => left; rfl
            | none =>
              right
              exact ⟨a0, a1, a2, a3, n, rfl, hn, hg, rfl⟩

end CreateCharacterization

/-- Claim C1 (amended): in every store state reachable by fault-free
operations, the composite secondary-index entry
`(indexName, degree, certificateID)` exists exactly for the primary records
that exist — no orphan index entries (`IndexImpliesRecord`) and no missing
index entries (`RecordImpliesIndex`).  The amendment restricts the claim to
runs in which the index-write step does not fail, which
`index_invariant_cex` shows is necessary. -/
theorem create_preserves_index_invariant (s : Store) (h : ReachableNF s) :
    IndexImpliesRecord s ∧ RecordImpliesIndex s := by
  induction h with
  | init =>
    constructor
    · intro d c hge; simp [getState] at hge
    · intro c v hgv; simp [getState] at hgv
  | step args h ih =>
    rename_i s0
    rcases initCert_noFaults_store s0 args with heq | ⟨a0, a1, a2, a3, n, _, hn, habs, heq⟩
    · rw [heq]; exact ih
    · rw [heq]
      constructor
      · -- no orphan index entries is preserved
        intro d c hge
        by_cases hdc :
            (Key.composite "degree~name" [d, c] : Key)
              = Key.composite "degree~name" [strToLower a1, a0]
        · have hc : c = a0 := by
            simp only [Key.composite.injEq, List.cons.injEq] at hdc
            exact hdc.2.2.1
          subst hc
          rw [getState_putState_ne _ _ _ _ (by simp), getState_putState_self]
          rfl
        · rw [getState_putState_ne _ _ _ _ hdc,
            getState_putState_ne _ _ _ _ (by simp)] at hge
          have hrec := ih.1 d c hge
          by_cases hc : c = a0
          · subst hc
            rw [getState_putState_ne _ _ _ _ (by simp), getState_putState_self]
            rfl
          · rw [getState_putState_ne _ _ _ _ (by simp [hc]),
              getState_putState_ne _ _ _ _ (by simp [hc])]
            exact hrec
      · -- no missing index entries is preserved
        intro c v hgv
        rw [getState_putState_ne _ _ _ _ (by simp)] at hgv
        by_cases hc : c = a0
        · subst hc
          rw [getState_putState_self] at hgv
          refine ⟨strToLower a1, n, strToLower a3, ?_, ?_⟩
          · exact (Option.some_inj.mp hgv).symm
          · rw [getState_putState_self]; rfl
        · rw [getState_putState_ne _ _ _ _ (by simp [hc])] at hgv
          obtain ⟨d, i, o, hv, hidx⟩ := ih.2 c v hgv
          refine ⟨d, i, o, hv, ?_⟩
          rw [getState_putState_ne _ _ _ _ (by simp [hc]),
            getState_putState_ne _ _ _ _ (by simp)]
          exact hidx

/-- Claim C1, as stated, is false: when the index-key write fails (its error
result is discarded by the source), the reachable store after
`initCert([], "as23df", "ME", "4674", "hussein")` holds the primary record
for `"as23df"` but no composite-index entry `("degree~name", "me", "as23df")`
— an index entry is missing while the primary record exists. -/
theorem index_invariant_cex :
    Reachable ((initCert ⟨none, none, none, some "disk full"⟩ []
        ["as23df", "ME", "4674", "hussein"]).store) ∧
    (getState ((initCert ⟨none, none, none, some "disk full"⟩ []
        ["as23df", "ME", "4674", "hussein"]).store) (.primary "as23df")).isSome = true ∧
    getState ((initCert ⟨none, none, none, some "disk full"⟩ []
        ["as23df", "ME", "4674", "hussein"]).store)
      (.composite "degree~name" ["me", "as23df"]) = none := by
  refine ⟨Reachable.step _ _ Reachable.init, ?_, ?_⟩ <;> decide

/-- Witness for `create_preserves_index_invariant` at the concrete store
reached by one successful `initCert`. -/
theorem create_preserves_index_invariant_w :
    IndexImpliesRecord ((initCert noFaults [] ["as23df", "ME", "4674", "hussein"]).store) ∧
    RecordImpliesIndex ((initCert noFaults [] ["as23df", "ME", "4674", "hussein"]).store) :=
  create_preserves_index_invariant _ (ReachableNF.step _ ReachableNF.init)

/-- Complete case analysis of `initCert`: one disjunct per `return`
statement of the source, each recording the conditions that reach it and the
full output produced there. -/
theorem initCert_spec (f : CreateFaults) (s : Store) (args : List String) :
    (args.length ≠ 4 ∧
      initCert f s args = ⟨.error "Incorrect number of arguments. Expecting 4", s, 0, 0, .badCount⟩) ∨
    ∃ a0 a1 a2 a3, args = [a0, a1, a2, a3] ∧
      ((a0 = "" ∧
          initCert f s args = ⟨.error "1st argument must be a non-empty string", s, 0, 0, .emptyArg1⟩) ∨
       (a0 ≠ "" ∧ a1 = "" ∧
          initCert f s args = ⟨.error "2nd argument must be a non-empty string", s, 0, 0, .emptyArg2⟩) ∨
       (a0 ≠ "" ∧ a1 ≠ "" ∧ a2 = "" ∧
          initCert f s args = ⟨.error "3rd argument must be a non-empty string", s, 0, 0, .emptyArg3⟩) ∨
       (a0 ≠ "" ∧ a1 ≠ "" ∧ a2 ≠ "" ∧ a3 = "" ∧
          initCert f s args = ⟨.error "4th argument must be a non-empty string", s, 0, 0, .emptyArg4⟩) ∨
       (a0 ≠ "" ∧ a1 ≠ "" ∧ a2 ≠ "" ∧ a3 ≠ "" ∧ atoi a2 = none ∧
          initCert f s args = ⟨.error "3rd argument must be a numeric string", s, 0, 0, .badNum⟩) ∨
       (a0 ≠ "" ∧ a1 ≠ "" ∧ a2 ≠ "" ∧ a3 ≠ "" ∧ ∃ n, atoi a2 = some n ∧
        ((∃ e, f.getFail = some e ∧
            initCert f s args = ⟨.error ("Failed to get student: " ++ e), s, 1, 0, .getErr⟩) ∨
         (f.getFail = none ∧
          ((∃ v, getState s (.primary a0) = some v ∧
              initCert f s args = ⟨.error ("This student already exists: " ++ a0), s, 1, 0, .duplicate⟩) ∨
           (getState s (.primary a0) = none ∧
            ((∃ e, f.putCertFail = some e ∧
                initCert f s args = ⟨.error e, s, 1, 1, .putCertErr⟩) ∨
             (f.putCertFail = none ∧
              ((∃ e, f.ckFail = some e ∧
                  initCert f s args =
                    ⟨.error e,
                      putState s (.primary a0)
                        (marshalStudent a0 (strToLower a1) n (strToLower a3)), 1, 1, .ckErr⟩) ∨
               (f.ckFail = none ∧
                ((∃ e, f.putIndexFail = some e ∧
                    initCert f s args =
                      ⟨.success none,
                        putState s (.primary a0)
                          (marshalStudent a0 (strToLower a1) n (strToLower a3)), 1, 2, .ok⟩) ∨
                 (f.putIndexFail = none ∧
                    initCert f s args =
                      ⟨.success none,
                        putState
                          (putState s (.primary a0)
                            (marshalStudent a0 (strToLower a1) n (strToLower a3)))
                          (.composite "degree~name" [strToLower a1, a0]) sentinel,
                        1, 2, .ok⟩)))))))))))) := by
  rcases args with _ | ⟨a0, _ | ⟨a1, _ | ⟨a2, _ | ⟨a3, _ | ⟨a4, rest⟩⟩⟩⟩⟩ <;>
    try (left; exact ⟨by simp, rfl⟩)
  right
  refine ⟨a0, a1, a2, a3, rfl, ?_⟩
  by_cases h0 : a0 = ""
  · refine Or.inl ⟨h0, ?_⟩
    unfold initCert
    dsimp only
    rw [if_pos h0]
  · by_cases h1 : a1 = ""
    · refine Or.inr (Or.inl ⟨h0, h1, ?_⟩)
      unfold initCert
      dsimp only
      rw [if_neg h0, if_pos h1]
    · by_cases h2 : a2 = ""
      · refine Or.inr (Or.inr (Or.inl ⟨h0, h1, h2, ?_⟩))
        unfold initCert
        dsimp only
        rw [if_neg h0, if_neg h1, if_pos h2]
      · by_cases h3 : a3 = ""
        · refine Or.inr (Or.inr (Or.inr (Or.inl ⟨h0, h1, h2, h3, ?_⟩)))
          unfold initCert
          dsimp only
          rw [if_neg h0, if_neg h1, if_neg h2, if_pos h3]
        · cases hn : atoi a2 with
          | none =>
            refine Or.inr (Or.inr (Or.inr (Or.inr (Or.inl ⟨h0, h1, h2, h3, rfl, ?_⟩))))
            unfold initCert
            dsimp only
            rw [if_neg h0, if_neg h1, if_neg h2, if_neg h3, hn]
          | some n =>
            refine Or.inr (Or.inr (Or.inr (Or.inr (Or.inr ⟨h0, h1, h2, h3, n, rfl, ?_⟩))))
            cases hgf : f.getFail with
            | some e =>
              refine Or.inl ⟨e, rfl, ?_⟩
              unfold initCert
              dsimp only
              rw [if_neg h0, if_neg h1, if_neg h2, if_neg h3, hn, hgf]
            | none =>
              refine Or.inr ⟨rfl, ?_⟩
              cases hget : getState s (.primary a0) with
              | some v =>
                refine Or.inl ⟨v, rfl, ?_⟩
                unfold initCert
                dsimp only
                rw [if_neg h0, if_neg h1, if_neg h2, if_neg h3, hn, hgf, hget]
              | none =>
                refine Or.inr ⟨rfl, ?_⟩
                cases hp1 : f.putCertFail with
                | some e =>
                  refine Or.inl ⟨e, rfl, ?_⟩
                  unfold initCert
                  dsimp only
                  rw [if_neg h0, if_neg h1, if_neg h2, if_neg h3, hn, hgf, hget, hp1]
                | none =>
                  refine Or.inr ⟨rfl, ?_⟩
                  cases hck : f.ckFail with
                  | some e =>
                    refine Or.inl ⟨e, rfl, ?_⟩
                    unfold initCert
                    dsimp only
                    rw [if_neg h0, if_neg h1, if_neg h2, if_neg h3, hn, hgf, hget, hp1, hck]
                  | none =>
                    refine Or.inr ⟨rfl, ?_⟩
                    cases hp2 : f.putIndexFail with
                    | some e =>
                      refine Or.inl ⟨e, rfl, ?_⟩
                      unfold initCert
                      dsimp only
                      rw [if_neg h0, if_neg h1, if_neg h2, if_neg h3, hn, hgf, hget, hp1, hck, hp2]
                    | none =>
                      refine Or.inr ⟨rfl, ?_⟩
                      unfold initCert
                      dsimp only
                      rw [if_neg h0, if_neg h1, if_neg h2, if_neg h3, hn, hgf, hget, hp1, hck, hp2]

/-- Claim C2: `initCert` issues exactly two `PutState` calls when it returns
success, and zero `PutState` calls (and leaves the store untouched) when it
exits at any validation or uniqueness failure — argument count, an empty
argument, a non-numeric third argument, a failing uniqueness lookup, or a
duplicate record. -/
theorem create_write_effects (f : CreateFaults) (s : Store) (args : List String) :
    ((initCert f s args).resp = .success none → (initCert f s args).puts = 2) ∧
    ((initCert f s args).tag = .badCount ∨ (initCert f s args).tag = .emptyArg1 ∨
        (initCert f s args).tag = .emptyArg2 ∨ (initCert f s args).tag = .emptyArg3 ∨
        (initCert f s args).tag = .emptyArg4 ∨ (initCert f s args).tag = .badNum ∨
        (initCert f s args).tag = .getErr ∨ (initCert f s args).tag = .duplicate →
      (initCert f s args).puts = 0 ∧ (initCert f s args).store = s) := by
  rcases initCert_spec f s args with ⟨_, heq⟩ |
    ⟨a0, a1, a2, a3, _, ⟨_, heq⟩ | ⟨_, _, heq⟩ | ⟨_, _, _, heq⟩ | ⟨_, _, _, _, heq⟩ |
      ⟨_, _, _, _, _, heq⟩ |
      ⟨_, _, _, _, n, _, ⟨e, _, heq⟩ | ⟨_, ⟨v, _, heq⟩ | ⟨_, ⟨e, _, heq⟩ | ⟨_, ⟨e, _, heq⟩ |
        ⟨_, ⟨e, _, heq⟩ | ⟨_, heq⟩⟩⟩⟩⟩⟩⟩ <;>
    (rw [heq]; constructor <;> intro h <;> simp_all)

/-- Claim C3: `initCert` validates in source order before any store access —
a wrong argument count always fails with the argument-count error regardless
of content; otherwise the first empty positional argument fails with the
error naming that position; otherwise a third argument that `strconv.Atoi`
rejects fails with the numeric-argument error.  Every such exit performs
zero `GetState` and zero `PutState` calls. -/
theorem create_validation_first (f : CreateFaults) (s : Store) :
    (∀ args : List String, args.length ≠ 4 →
      initCert f s args =
        ⟨.error "Incorrect number of arguments. Expecting 4", s, 0, 0, .badCount⟩) ∧
    (∀ a0 a1 a2 a3 : String,
      (a0 = "" → initCert f s [a0, a1, a2, a3] =
        ⟨.error "1st argument must be a non-empty string", s, 0, 0, .emptyArg1⟩) ∧
      (a0 ≠ "" → a1 = "" → initCert f s [a0, a1, a2, a3] =
        ⟨.error "2nd argument must be a non-empty string", s, 0, 0, .emptyArg2⟩) ∧
      (a0 ≠ "" → a1 ≠ "" → a2 = "" → initCert f s [a0, a1, a2, a3] =
        ⟨.error "3rd argument must be a non-empty string", s, 0, 0, .emptyArg3⟩) ∧
      (a0 ≠ "" → a1 ≠ "" → a2 ≠ "" → a3 = "" → initCert f s [a0, a1, a2, a3] =
        ⟨.error "4th argument must be a non-empty string", s, 0, 0, .emptyArg4⟩) ∧
      (a0 ≠ "" → a1 ≠ "" → a2 ≠ "" → a3 ≠ "" → atoi a2 = none →
        initCert f s [a0, a1, a2, a3] =
          ⟨.error "3rd argument must be a numeric string", s, 0, 0, .badNum⟩)) := by
  constructor
  · intro args hlen
    rcases initCert_spec f s args with ⟨_, heq⟩ | ⟨b0, b1, b2, b3, heqargs, _⟩
    · exact heq
    · rw [heqargs] at hlen; simp at hlen
  · intro a0 a1 a2 a3
    rcases initCert_spec f s [a0, a1, a2, a3] with ⟨hlen, _⟩ |
      ⟨b0, b1, b2, b3, heqargs, hcase⟩
    · simp at hlen
    · obtain ⟨rfl, rfl, rfl, rfl⟩ :
          a0 = b0 ∧ a1 = b1 ∧ a2 = b2 ∧ a3 = b3 := by
        simpa using heqargs
      refine ⟨?_, ?_, ?_, ?_, ?_⟩ <;> intros <;>
        rcases hcase with ⟨_, heq⟩ | ⟨_, _, heq⟩ | ⟨_, _, _, heq⟩ | ⟨_, _, _, _, heq⟩ |
          ⟨_, _, _, _, _, heq⟩ |
          ⟨_, _, _, _, n, hn, _⟩ <;> simp_all

/-- Claim C4 (amended): a second `initCert` for a certificate ID already in
the store fails with the duplicate-record error and leaves the store exactly
as it was (zero writes), provided the other arguments pass validation
(non-empty, numeric third argument) and the uniqueness lookup itself does not
fail.  The amendment adds those provisos: `create_duplicate_cex` shows the
claim's "any other arguments" is false when a later argument is empty. -/
theorem create_duplicate_nomod (f : CreateFaults) (s : Store) (id a1 a2 a3 v : String)
    (h0 : id ≠ "") (h1 : a1 ≠ "") (h2 : a2 ≠ "") (h3 : a3 ≠ "")
    (hn : (atoi a2).isSome = true) (hgf : f.getFail = none)
    (hdup : getState s (.primary id) = some v) :
    initCert f s [id, a1, a2, a3] =
      ⟨.error ("This student already exists: " ++ id), s, 1, 0, .duplicate⟩ := by
  rcases initCert_spec f s [id, a1, a2, a3] with ⟨hlen, _⟩ |
    ⟨b0, b1, b2, b3, heqargs, hcase⟩
  · simp at hlen
  · obtain ⟨rfl, rfl, rfl, rfl⟩ :
        id = b0 ∧ a1 = b1 ∧ a2 = b2 ∧ a3 = b3 := by
      simpa using heqargs
    rcases hcase with ⟨he, _⟩ | ⟨_, he, _⟩ | ⟨_, _, he, _⟩ | ⟨_, _, _, he, _⟩ |
      ⟨_, _, _, _, hn2, _⟩ |
      ⟨_, _, _, _, n, hn2, ⟨e, hgf2, _⟩ | ⟨_, ⟨v2, hdup2, heq⟩ | ⟨habs, _⟩⟩⟩ <;> simp_all

/-- Claim C4, as stated, is false for invalid "other" arguments: after a
successful create of `"as23df"`, a second create for the same ID with an
empty second argument fails with the 2nd-argument validation error, not with
the duplicate-record error. -/
theorem create_duplicate_cex :
    (initCert noFaults ((initCert noFaults [] ["as23df", "ME", "4674", "Hussein"]).store)
        ["as23df", "", "", ""]).resp = .error "2nd argument must be a non-empty string" ∧
    (initCert noFaults ((initCert noFaults [] ["as23df", "ME", "4674", "Hussein"]).store)
        ["as23df", "", "", ""]).resp ≠ .error ("This student already exists: " ++ "as23df") := by
  constructor
  · decide
  · decide

/-- Witness for `create_write_effects`: a successful create issues two puts;
a short argument list issues none and leaves the store unchanged. -/
theorem create_write_effects_w :
    (initCert noFaults [] ["as23df", "ME", "4674", "hussein"]).puts = 2 ∧
    ((initCert noFaults [] ["x"]).puts = 0 ∧ (initCert noFaults [] ["x"]).store = []) :=
  ⟨(create_write_effects noFaults [] ["as23df", "ME", "4674", "hussein"]).1 (by decide),
   (create_write_effects noFaults [] ["x"]).2 (Or.inl (by decide))⟩

/-- Witness for `create_validation_first`: each validation exit evaluated at
a concrete argument list. -/
theorem create_validation_first_w :
    initCert noFaults [] ["x"] =
      ⟨.error "Incorrect number of arguments. Expecting 4", [], 0, 0, .badCount⟩ ∧
    initCert noFaults [] ["", "a", "1", "b"] =
      ⟨.error "1st argument must be a non-empty string", [], 0, 0, .emptyArg1⟩ ∧
    initCert noFaults [] ["a", "", "1", "b"] =
      ⟨.error "2nd argument must be a non-empty string", [], 0, 0, .emptyArg2⟩ ∧
    initCert noFaults [] ["a", "b", "", "c"] =
      ⟨.error "3rd argument must be a non-empty string", [], 0, 0, .emptyArg3⟩ ∧
    initCert noFaults [] ["a", "b", "1", ""] =
      ⟨.error "4th argument must be a non-empty string", [], 0, 0, .emptyArg4⟩ ∧
    initCert noFaults [] ["a", "b", "12x", "c"] =
      ⟨.error "3rd argument must be a numeric string", [], 0, 0, .badNum⟩ :=
  ⟨(create_validation_first noFaults []).1 ["x"] (by decide),
   ((create_validation_first noFaults []).2 "" "a" "1" "b").1 rfl,
   ((create_validation_first noFaults []).2 "a" "" "1" "b").2.1 (by decide) rfl,
   ((create_validation_first noFaults []).2 "a" "b" "" "c").2.2.1 (by decide) (by decide) rfl,
   ((create_validation_first noFaults []).2 "a" "b" "1" "").2.2.2.1
     (by decide) (by decide) (by decide) rfl,
   ((create_validation_first noFaults []).2 "a" "b" "12x" "c").2.2.2.2
     (by decide) (by decide) (by decide) (by decide) (by decide)⟩

/-- Witness for `create_duplicate_nomod` at a concrete one-record store. -/
theorem create_duplicate_nomod_w :
    initCert noFaults [(Key.primary "id1", "rec")] ["id1", "b", "1", "c"] =
      ⟨.error ("This student already exists: " ++ "id1"),
        [(Key.primary "id1", "rec")], 1, 0, .duplicate⟩ :=
  create_duplicate_nomod noFaults [(Key.primary "id1", "rec")] "id1" "b" "1" "c" "rec"
    (by decide) (by decide) (by decide) (by decide) (by decide) rfl (by decide)

/-- Claim C5 (amended): for every finite stream of (key, value) pairs the
query-result builder returns exactly the byte sequence `emittedOutput`: a
JSON array with one `\x7b"Key":"<k>", "Record":<v>\x7d` element per pair —
the stored value bytes embedded raw — a comma before every element except
the first, no trailing comma, and exactly `[]` for the empty stream.  The
amendment (forced by `query_builder_cex`) is the single space the source
writes between the element's comma and `"Record"`; the spec's claimed bytes
have none. -/
theorem query_builder_output (facility : QueryFacility) (qs : String)
    (ps : List (String × Bytes)) (h : facility qs = .ok (ps.map Except.ok)) :
    (getQueryResultForQueryString facility qs).1 = .ok (emittedOutput ps) := by
  unfold getQueryResultForQueryString
  rw [h]
  cases ps with
  | nil => rfl
  | cons p ps =>
    rw [List.map_cons]
    show (qloop (Except.ok p :: ps.map Except.ok) false "[").1 = _
    rw [show qloop (Except.ok p :: ps.map Except.ok) false "["
        = qloop (ps.map Except.ok) true
            (cond false ("[" ++ ",") "[" ++ "\x7b\"Key\":" ++ "\"" ++ p.1 ++ "\"" ++
              ", \"Record\":" ++ p.2 ++ "\x7d") from rfl]
    rw [qloop_ok_eq]
    show Except.ok _ = Except.ok _
    refine congrArg Except.ok ?_
    unfold emittedOutput
    rw [List.map_cons, intercalate_comma_eq]
    rw [show cond false ("[" ++ ",") "[" = "[" from rfl]
    unfold emittedElem
    simp only [String.append_assoc]

/-- Claim C5, as stated, is false byte-for-byte: on the one-pair stream
`("k1", "\x7b\x7d")` the builder emits `, "Record":` with a space, so the
output differs from the spec's claimed byte sequence `claimedOutput`. -/
theorem query_builder_cex :
    (getQueryResultForQueryString (fun _ => .ok [Except.ok ("k1", "\x7b\x7d")]) "q").1 =
      .ok ("[\x7b\"Key\":\"k1\", \"Record\":\x7b\x7d\x7d]") ∧
    "[\x7b\"Key\":\"k1\", \"Record\":\x7b\x7d\x7d]" ≠ claimedOutput [("k1", "\x7b\x7d")] := by
  exact ⟨rfl, by decide⟩

/-- Witness for `query_builder_output` on a concrete two-pair stream. -/
theorem query_builder_output_w :
    (getQueryResultForQueryString (fun _ => .ok [Except.ok ("k1", "7"), Except.ok ("k2", "8")])
        "q").1 = .ok (emittedOutput [("k1", "7"), ("k2", "8")]) :=
  query_builder_output (fun _ => .ok [Except.ok ("k1", "7"), Except.ok ("k2", "8")]) "q"
    [("k1", "7"), ("k2", "8")] rfl

/-- Claim C6: `readCert` returns the store-unavailable payload with the key
embedded when the lookup itself errors, the not-found payload with the key
embedded when the key is absent (never a success), and otherwise the raw
stored bytes unchanged. -/
theorem read_by_id_paths (cert : String) (s : Store) :
    (∀ e, readCert (some e) s [cert] =
      .error ("\x7b\"Error\":\"Failed to get state for " ++ cert ++ "\"\x7d")) ∧
    (getState s (.primary cert) = none →
      readCert none s [cert] =
        .error ("\x7b\"Error\":\"student does not exist: " ++ cert ++ "\"\x7d")) ∧
    (∀ v, getState s (.primary cert) = some v →
      readCert none s [cert] = .success (some v)) := by
  refine ⟨fun e => rfl, fun h => ?_, fun v h => ?_⟩ <;> (unfold readCert; dsimp only; rw [h])

/-- Witness for `read_by_id_paths` at a concrete key and store. -/
theorem read_by_id_paths_w :
    readCert (some "io") [] ["c1"] =
      .error ("\x7b\"Error\":\"Failed to get state for " ++ "c1" ++ "\"\x7d") ∧
    readCert none [] ["c1"] =
      .error ("\x7b\"Error\":\"student does not exist: " ++ "c1" ++ "\"\x7d") ∧
    readCert none [(Key.primary "c1", "v1")] ["c1"] = .success (some "v1") :=
  ⟨(read_by_id_paths "c1" []).1 "io",
   (read_by_id_paths "c1" []).2.1 rfl,
   (read_by_id_paths "c1" [(Key.primary "c1", "v1")]).2.2 "v1" (by decide)⟩

/-- Claim C10: whenever a query iterator was obtained, it is closed on every
exit path of `getQueryResultForQueryString` — both when the stream is
exhausted normally and when an element fetch returns an error (the source's
`defer resultsIterator.Close()`). -/
theorem iterator_closed_on_every_path (facility : QueryFacility) (qs : String)
    (items : List QueryItem) (h : facility qs = .ok items) :
    (getQueryResultForQueryString facility qs).2 = true := by
  unfold getQueryResultForQueryString
  rw [h]
  exact qloop_closed items false "["

/-- Witness for `iterator_closed_on_every_path` on a stream whose first
fetch errors. -/
theorem iterator_closed_on_every_path_w :
    (getQueryResultForQueryString (fun _ => .ok [Except.error "boom"]) "q").2 = true :=
  iterator_closed_on_every_path (fun _ => .ok [Except.error "boom"]) "q" [Except.error "boom"] rfl

/-- Claim C9: `queryCertByOwner` lowercases the owner before building the
selector, so the selector built for `s` equals the selector built for
`strToLower s`, and the whole operation returns the same result on `s` and
on `strToLower s` (against the same query facility). -/
theorem query_owner_case_insensitive (facility : QueryFacility) (s : String)
    (rest : List String) :
    ownerSelector (strToLower s) = ownerSelector (strToLower (strToLower s)) ∧
    queryCertByOwner facility (s :: rest) = queryCertByOwner facility (strToLower s :: rest) := by
  have hid := strToLower_idem s
  refine ⟨by rw [hid], ?_⟩
  simp only [queryCertByOwner, List.headD_cons, List.length_cons, hid]

/-- Claim C7: after a successful fault-free create, `readCert` on the
certificate ID returns the persisted `marshalStudent` encoding — fields
`docType` (the fixed `"student"` discriminator), `cert` (the given ID),
`degree` (lowercased degree), `iD` (the parsed integer), `owner` (lowercased
owner) — and the composite-index entry
`("degree~name", lowercase degree, ID)` is present with the sentinel
value. -/
theorem create_then_read (s : Store) (id dg num ow : String) (n : Int)
    (h0 : id ≠ "") (h1 : dg ≠ "") (h2 : num ≠ "") (h3 : ow ≠ "")
    (hn : atoi num = some n) (habs : getState s (.primary id) = none) :
    (initCert noFaults s [id, dg, num, ow]).resp = .success none ∧
    readCert none (initCert noFaults s [id, dg, num, ow]).store [id] =
      .success (some (marshalStudent id (strToLower dg) n (strToLower ow))) ∧
    getState (initCert noFaults s [id, dg, num, ow]).store
      (.composite "degree~name" [strToLower dg, id]) = some sentinel := by
  rcases initCert_spec noFaults s [id, dg, num, ow] with ⟨hlen, _⟩ |
    ⟨b0, b1, b2, b3, heqargs, hcase⟩
  · simp at hlen
  · obtain ⟨rfl, rfl, rfl, rfl⟩ :
        id = b0 ∧ dg = b1 ∧ num = b2 ∧ ow = b3 := by
      simpa using heqargs
    rcases hcase with ⟨he, _⟩ | ⟨_, he, _⟩ | ⟨_, _, he, _⟩ | ⟨_, _, _, he, _⟩ |
      ⟨_, _, _, _, hn2, _⟩ |
      ⟨_, _, _, _, m, hm, ⟨e, hgf, _⟩ | ⟨_, ⟨v, hdup, _⟩ | ⟨_, ⟨e, hp, _⟩ | ⟨_, ⟨e, hc, _⟩ |
        ⟨_, ⟨e, hp2, _⟩ | ⟨_, heq⟩⟩⟩⟩⟩⟩
    · exact absurd he h0
    · exact absurd he h1
    · exact absurd he h2
    · exact absurd he h3
    · simp_all
    · simp [noFaults] at hgf
    · simp_all
    · simp [noFaults] at hp
    · simp [noFaults] at hc
    · simp [noFaults] at hp2
    · have hmn : m = n := by rw [hm] at hn; exact Option.some_inj.mp hn
      subst hmn
      rw [heq]
      refine ⟨rfl, ?_, ?_⟩
      · unfold readCert
        dsimp only
        rw [getState_putState_ne _ _ _ _ (by simp), getState_putState_self]
      · rw [getState_putState_self]

/-- Witness for `create_then_read` at the spec's concrete example. -/
theorem create_then_read_w :
    (initCert noFaults [] ["as23df", "ME", "4674", "hussein"]).resp = .success none ∧
    readCert none (initCert noFaults [] ["as23df", "ME", "4674", "hussein"]).store ["as23df"] =
      .success (some (marshalStudent "as23df" (strToLower "ME") 4674 (strToLower "hussein"))) ∧
    getState (initCert noFaults [] ["as23df", "ME", "4674", "hussein"]).store
      (.composite "degree~name" [strToLower "ME", "as23df"]) = some sentinel :=
  create_then_read [] "as23df" "ME" "4674" "hussein" 4674
    (by decide) (by decide) (by decide) (by decide) (by decide) rfl

/-- Claim C8: when the index-key `PutState` fails after the primary record
write succeeded, `initCert` still returns success — the error result of that
write is discarded — and the store holds the primary record but no index
entry. -/
theorem index_write_error_discarded (s : Store) (id dg num ow e : String) (n : Int)
    (h0 : id ≠ "") (h1 : dg ≠ "") (h2 : num ≠ "") (h3 : ow ≠ "")
    (hn : atoi num = some n) (habs : getState s (.primary id) = none) :
    initCert ⟨none, none, none, some e⟩ s [id, dg, num, ow] =
      ⟨.success none,
        putState s (.primary id) (marshalStudent id (strToLower dg) n (strToLower ow)),
        1, 2, .ok⟩ := by
  rcases initCert_spec ⟨none, none, none, some e⟩ s [id, dg, num, ow] with ⟨hlen, _⟩ |
    ⟨b0, b1, b2, b3, heqargs, hcase⟩
  · simp at hlen
  · obtain ⟨rfl, rfl, rfl, rfl⟩ :
        id = b0 ∧ dg = b1 ∧ num = b2 ∧ ow = b3 := by
      simpa using heqargs
    rcases hcase with ⟨he, _⟩ | ⟨_, he, _⟩ | ⟨_, _, he, _⟩ | ⟨_, _, _, he, _⟩ |
      ⟨_, _, _, _, hn2, _⟩ |
      ⟨_, _, _, _, m, hm, ⟨e2, hgf, _⟩ | ⟨_, ⟨v, hdup, _⟩ | ⟨_, ⟨e2, hp, _⟩ | ⟨_, ⟨e2, hc, _⟩ |
        ⟨_, ⟨e2, hp2, heq⟩ | ⟨hp2, _⟩⟩⟩⟩⟩⟩
    · exact absurd he h0
    · exact absurd he h1
    · exact absurd he h2
    · exact absurd he h3
    · simp_all
    · simp at hgf
    · simp_all
    · simp at hp
    · simp at hc
    · have hmn : m = n := by rw [hm] at hn; exact Option.some_inj.mp hn
      subst hmn
      exact heq
    · simp at hp2

/-- Witness for `index_write_error_discarded` at concrete arguments. -/
theorem index_write_error_discarded_w :
    initCert ⟨none, none, none, some "disk full"⟩ [] ["as23df", "ME", "4674", "hussein"] =
      ⟨.success none,
        putState [] (.primary "as23df")
          (marshalStudent "as23df" (strToLower "ME") 4674 (strToLower "hussein")),
        1, 2, .ok⟩ :=
  index_write_error_discarded [] "as23df" "ME" "4674" "hussein" "disk full" 4674
    (by decide) (by decide) (by decide) (by decide) (by decide) rfl
